import Mathlib

/-!
# Verification of the crucibia contribution form (src/app.py)

A shallow embedding of the core logic of `app.py`: the input sanitizer
(`sanitize_input`, built on `bleach.clean` with `tags=[]`, `attributes={}`,
`strip=True`), the field validators (`is_valid_word`, `is_valid_clue`, the
WTForms `DataRequired`/`Length` checks of `ContributionForm`), the duplicate
guard, the submission handler (`index`, POST branch), the admin login
(`admin`, POST branch), the CSV export (`export_csv`) and the admin delete
(`delete_submission`).  Strings are Lean `String`s (lists of unicode
characters), the submissions table is a list of rows with an autoincrement
counter, and the session is a record of the two boolean gate flags.
-/

namespace Crucibia

/-- The whitespace characters stripped by Python's `str.strip()` and matched
by the regex class `\s` (restricted to the ASCII range, which is the range
exercised by the application's character classes). -/
def isPySpace (c : Char) : Bool :=
  c = ' ' || c = '\t' || c = '\n' || c = '\x0d' || c = '\x0b' || c = '\x0c'

/-- Python `str.strip()`: drop leading and trailing whitespace. -/
def pyStrip (s : String) : String :=
  ⟨(s.data.dropWhile isPySpace).reverse.dropWhile isPySpace |>.reverse⟩

/-- The uppercase/lowercase letter pairs that Python's `str.lower()` maps,
restricted to the alphabet admitted by `is_valid_word`: ASCII letters plus
the ten accented vowels of the validation regex. -/
def lowerPairs : List (Char × Char) :=
  [('A', 'a'), ('B', 'b'), ('C', 'c'), ('D', 'd'), ('E', 'e'), ('F', 'f'),
   ('G', 'g'), ('H', 'h'), ('I', 'i'), ('J', 'j'), ('K', 'k'), ('L', 'l'),
   ('M', 'm'), ('N', 'n'), ('O', 'o'), ('P', 'p'), ('Q', 'q'), ('R', 'r'),
   ('S', 's'), ('T', 't'), ('U', 'u'), ('V', 'v'), ('W', 'w'), ('X', 'x'),
   ('Y', 'y'), ('Z', 'z'),
   ('À', 'à'), ('Á', 'á'), ('È', 'è'), ('É', 'é'), ('Ì', 'ì'), ('Í', 'í'),
   ('Ò', 'ò'), ('Ó', 'ó'), ('Ù', 'ù'), ('Ú', 'ú')]

/-- Python `str.lower()` on a single character (on the application's
alphabet; characters outside `lowerPairs` are left unchanged). -/
def pyLower (c : Char) : Char :=
  ((lowerPairs.find? (fun p => p.1 = c)).map (fun p => p.2)).getD c

/-- Python `str.lower()`. -/
def pyLowerStr (s : String) : String :=
  ⟨s.data.map pyLower⟩

/-- Does a `<` start markup?  `bleach`'s HTML tokenizer treats `<` followed
by a letter, `/`, `!` or `?` as the start of a tag (or comment/declaration),
and a `<` followed by anything else as literal text. -/
def startsTag (c : Char) : Bool :=
  c.isAlpha || c = '/' || c = '!' || c = '?'

/-- Character-level model of `bleach.clean(·, tags=[], attributes={},
strip=True)`: every tag (with its attributes) is removed, text between tags
is kept, and stray `<`, `>`, `&` in text are entity-escaped.  The flag is
true while inside a tag (consuming up to the closing `>`).  Nested/quoted
corner cases of the HTML tokenizer (comments containing `>`, quoted
attribute values) are modelled at a single level: a tag ends at the first
`>`. -/
def bleachClean : Bool → List Char → List Char
  | true, [] => []
  | true, c :: rest =>
    if c = '>' then bleachClean false rest else bleachClean true rest
  | false, [] => []
  | false, c :: rest =>
    if c = '<' then
      match rest with
      | [] => ['&', 'l', 't', ';']
      | d :: _ =>
        if startsTag d then bleachClean true rest
        else '&' :: 'l' :: 't' :: ';' :: bleachClean false rest
    else if c = '>' then '&' :: 'g' :: 't' :: ';' :: bleachClean false rest
    else if c = '&' then '&' :: 'a' :: 'm' :: 'p' :: ';' :: bleachClean false rest
    else c :: bleachClean false rest

/-- `sanitize_input` from app.py: falsy (empty) input is returned as is,
otherwise the input is stripped and cleaned with
`bleach.clean(text.strip(), tags=[], attributes={}, strip=True)`. -/
def sanitize_input (s : String) : String :=
  if s = "" then s
  else ⟨bleachClean false (pyStrip s).data⟩

/-- The letters of the word-validation regex:
`a-zA-Z` plus the ten accented vowels, upper or lower case. -/
def isLatinLetter (c : Char) : Bool :=
  (('a' ≤ c && c ≤ 'z') || ('A' ≤ c && c ≤ 'Z')) ||
    (c = 'à' || c = 'á' || c = 'è' || c = 'é' || c = 'ì' || c = 'í' ||
     c = 'ò' || c = 'ó' || c = 'ù' || c = 'ú' ||
     c = 'À' || c = 'Á' || c = 'È' || c = 'É' || c = 'Ì' || c = 'Í' ||
     c = 'Ò' || c = 'Ó' || c = 'Ù' || c = 'Ú')

/-- The character class of the word-validation regex
`[a-zA-ZàáèéìíòóùúÀÁÈÉÌÍÒÓÙÚ\s]`. -/
def isWordChar (c : Char) : Bool :=
  isLatinLetter c || isPySpace c

/-- `is_valid_word` from app.py:
`bool(re.match(r'^[a-zA-ZàáèéìíòóùúÀÁÈÉÌÍÒÓÙÚ\s]+$', word.strip()))` —
the stripped word is non-empty and every character is in the class. -/
def is_valid_word (word : String) : Bool :=
  !(pyStrip word).data.isEmpty && (pyStrip word).data.all isWordChar

/-- `is_valid_clue` from app.py: `len(clue.strip()) >= 10`. -/
def is_valid_clue (clue : String) : Bool :=
  10 ≤ (pyStrip clue).length

/-- WTForms `DataRequired`: fails when the field is absent from the form
data, or its string value is empty or whitespace-only. -/
def dataRequired (v : Option String) : Bool :=
  match v with
  | none => false
  | some s => !(pyStrip s).data.isEmpty

/-- A WTForms field with `DataRequired` and `Length(min, max)` validators:
the raw field data must be present, not whitespace-only, and its length must
lie within the bounds. -/
def fieldValid (lo hi : Nat) (v : Option String) : Bool :=
  dataRequired v && lo ≤ (v.getD "").length && (v.getD "").length ≤ hi

/-- `ContributionForm.validate`: `parola` is required with length 1–50,
`frase_indizio` is required with length 10–200, `nome` is required with
length 1–50 (all measured on the raw submitted data). -/
def contribValidate (pv fv nv : Option String) : Bool :=
  fieldValid 1 50 pv && fieldValid 10 200 fv && fieldValid 1 50 nv

/-- One row of the `submissions` table: autoincrement `id`, `parola` and
`frase_indizio` NOT NULL, `nome` (possibly empty, the model of SQL
NULL/empty), `timestamp` assigned at insert time (modelled by the value of
the autoincrement counter, so later inserts have strictly larger
timestamps). -/
structure Submission where
  id : Nat
  parola : String
  frase_indizio : String
  nome : String
  timestamp : Nat
  deriving Repr, DecidableEq

/-- The submissions table plus the autoincrement counter (`AUTOINCREMENT`
starts at 1). -/
structure Store where
  rows : List Submission
  nextId : Nat
  deriving Repr, DecidableEq

/-- The empty database created by `init_db`. -/
def initStore : Store := ⟨[], 1⟩

/-- The session cookie: the two independent gate flags. -/
structure Session where
  form_access : Bool
  admin_logged_in : Bool
  deriving Repr, DecidableEq

/-- The configured secrets (`FORM_PASSWORD`, `ADMIN_PASSWORD`). -/
structure Config where
  form_password : String
  admin_password : String
  deriving Repr, DecidableEq

/-- `SELECT * FROM submissions WHERE parola = ? AND frase_indizio = ?`
with arguments `(parola.lower(), frase_indizio)`: is some row an exact
match? -/
def isDuplicate (store : Store) (parolaLower frase : String) : Bool :=
  store.rows.any (fun r => r.parola = parolaLower && r.frase_indizio = frase)

/-- `INSERT INTO submissions (parola, frase_indizio, nome) VALUES (?, ?, ?)`:
append a row with the next autoincrement id and the current timestamp. -/
def insertSub (store : Store) (parola frase nome : String) : Store :=
  ⟨store.rows ++ [⟨store.nextId, parola, frase, nome, store.nextId⟩],
   store.nextId + 1⟩

/-- The observable result of a POST to `/`. -/
inductive Outcome where
  /-- login succeeded: redirect to `/` with the gate flag set -/
  | loginRedirect
  /-- login failed: "Password errata" flash, login view re-rendered -/
  | loginError
  /-- login form invalid (missing/empty password): login view re-rendered -/
  | loginPage
  /-- POST without the contributor gate: redirect to `/` -/
  | gateRedirect
  /-- `ContributionForm.validate` failed: field error flashes, form re-rendered -/
  | formErrors
  /-- "La parola può contenere solo lettere e spazi" flash -/
  | invalidWord
  /-- "La frase indizio deve essere di almeno 10 caratteri" flash -/
  | invalidClue
  /-- "Questo contributo è già stato registrato" flash -/
  | duplicateMsg
  /-- success view rendered with the contributor's (sanitized) name -/
  | successPage (nome : String)
  deriving Repr, DecidableEq

/-- The POST branch of the `index` route: if the form data carries an
`access_password` field the request is treated as a login attempt (the
submitted password is sanitized before comparison with the configured
secret); otherwise, without the contributor gate the request is redirected,
and with it the contribution form is validated, sanitized, checked by
`is_valid_word` / `is_valid_clue`, checked against the duplicate guard, and
finally inserted with the word lowercased. -/
def indexPost (cfg : Config) (sess : Session) (form : List (String × String))
    (store : Store) : Outcome × Session × Store :=
  match form.lookup "access_password" with
  | some pw =>
    if dataRequired (some pw) then
      let password := sanitize_input pw
      if password = cfg.form_password then
        (.loginRedirect, { sess with form_access := true }, store)
      else
        (.loginError, sess, store)
    else
      (.loginPage, sess, store)
  | none =>
    if !sess.form_access then
      (.gateRedirect, sess, store)
    else
      let pv := form.lookup "parola"
      let fv := form.lookup "frase_indizio"
      let nv := form.lookup "nome"
      if contribValidate pv fv nv then
        let parola := sanitize_input (pv.getD "")
        let frase_indizio := sanitize_input (fv.getD "")
        let nome := sanitize_input (nv.getD "")
        if !is_valid_word parola then
          (.invalidWord, sess, store)
        else if !is_valid_clue frase_indizio then
          (.invalidClue, sess, store)
        else if isDuplicate store (pyLowerStr parola) frase_indizio then
          (.duplicateMsg, sess, store)
        else
          (.successPage nome, sess,
           insertSub store (pyLowerStr parola) frase_indizio nome)
      else
        (.formErrors, sess, store)

/-- The observable result of a POST to `/admin` (the admin login). -/
inductive AdminOutcome where
  /-- login succeeded: redirect to `/admin` with the admin flag set -/
  | adminRedirect
  /-- login failed: "Password errata" flash, login view re-rendered -/
  | adminError
  /-- login form invalid (missing/empty password): login view re-rendered -/
  | adminLoginPage
  deriving Repr, DecidableEq

/-- The POST branch of the `admin` route: the submitted password is
sanitized and compared with the configured admin secret; on success the
`admin_logged_in` flag is set. -/
def adminPost (cfg : Config) (sess : Session) (form : List (String × String)) :
    AdminOutcome × Session :=
  if dataRequired (form.lookup "password") then
    let password := sanitize_input ((form.lookup "password").getD "")
    if password = cfg.admin_password then
      (.adminRedirect, { sess with admin_logged_in := true })
    else
      (.adminError, sess)
  else
    (.adminLoginPage, sess)

/-- Insert a row into a list sorted by descending timestamp. -/
def insertDesc (r : Submission) : List Submission → List Submission
  | [] => [r]
  | x :: xs =>
    if x.timestamp ≤ r.timestamp then r :: x :: xs else x :: insertDesc r xs

/-- `ORDER BY timestamp DESC`. -/
def sortByTimestampDesc : List Submission → List Submission
  | [] => []
  | x :: xs => insertDesc x (sortByTimestampDesc xs)

/-- The `nome` column as exported: `submission['nome'] or 'Anonimo'`. -/
def csvName (nome : String) : String :=
  if nome = "" then "Anonimo" else nome

/-- One exported CSV record. -/
def csvRow (r : Submission) : List String :=
  [r.parola, r.frase_indizio, csvName r.nome, toString r.timestamp]

/-- The result of `GET /admin/export`. -/
inductive ExportResult where
  /-- `abort(403)` -/
  | forbidden
  /-- the CSV payload, as its list of records (header first) -/
  | csv (records : List (List String))
  deriving Repr, DecidableEq

/-- The `export_csv` route: without the admin gate, `abort(403)`; with it,
a header row followed by all submissions newest-first, with `Anonimo`
substituted for an empty contributor name. -/
def export_csv (sess : Session) (store : Store) : ExportResult :=
  if !sess.admin_logged_in then .forbidden
  else .csv (["Parola", "Frase Indizio", "Nome", "Data"] ::
    (sortByTimestampDesc store.rows).map csvRow)

/-- The result of `POST /admin/delete/<submission_id>`. -/
inductive DeleteResult where
  /-- `abort(403)` -/
  | forbidden
  /-- `abort(400)` (`submission_id <= 0`) -/
  | badRequest
  /-- "Contributo non trovato" flash, redirect to `/admin` -/
  | notFound
  /-- "Contributo eliminato" flash, redirect to `/admin` -/
  | deleted
  deriving Repr, DecidableEq

/-- The `delete_submission` route: without the admin gate, `abort(403)`;
`submission_id <= 0` is `abort(400)`; an id with no matching row is a soft
not-found (flash + redirect, store untouched); otherwise
`DELETE FROM submissions WHERE id = ?`. -/
def delete_submission (sess : Session) (submission_id : Nat) (store : Store) :
    DeleteResult × Store :=
  if !sess.admin_logged_in then (.forbidden, store)
  else if submission_id = 0 then (.badRequest, store)
  else if store.rows.any (fun r => r.id = submission_id) then
    (.deleted, ⟨store.rows.filter (fun r => r.id ≠ submission_id), store.nextId⟩)
  else
    (.notFound, store)

/-- The store states reachable from the initial (empty) database by the
public operations that touch the store: gated submission POSTs and admin
deletes (the other routes only read the store). -/
inductive Reachable : Store → Prop where
  | init : Reachable initStore
  | submit (cfg : Config) (sess : Session) (form : List (String × String))
      {s : Store} : Reachable s → Reachable (indexPost cfg sess form s).2.2
  | delete (sess : Session) (submission_id : Nat) {s : Store} :
      Reachable s → Reachable (delete_submission sess submission_id s).2

/-- The word character class as the specification words it: a Latin letter
(including the listed accented vowels) or a space.  This is the
specification's phrasing, to be compared with `isWordChar` from the source
regex (whose `\s` also admits other whitespace). -/
def claimedWordChar (c : Char) : Bool :=
  isLatinLetter c || c = ' '

/-! ### Helper lemmas -/

/-- No character emitted by the bleach model is a tag delimiter. -/
theorem bleachClean_delim_free (l : List Char) (mode : Bool) :
    ∀ c ∈ bleachClean mode l, c ≠ '<' ∧ c ≠ '>' := by
  induction l generalizing mode with
  | nil => cases mode <;> simp [bleachClean]
  | cons a rest ih =>
    cases mode with
    | true =>
      simp only [bleachClean]
      split
      · exact ih false
      · exact ih true
    | false =>
      simp only [bleachClean]
      split
      · cases rest with
        | nil => decide
        | cons d tl =>
          simp only
          split
          · exact ih true
          · intro c hc
            rcases List.mem_cons.mp hc with h | hc
            · subst h; decide
            rcases List.mem_cons.mp hc with h | hc
            · subst h; decide
            rcases List.mem_cons.mp hc with h | hc
            · subst h; decide
            rcases List.mem_cons.mp hc with h | hc
            · subst h; decide
            · exact ih false c hc
      · split
        · intro c hc
          rcases List.mem_cons.mp hc with h | hc
          · subst h; decide
          rcases List.mem_cons.mp hc with h | hc
          · subst h; decide
          rcases List.mem_cons.mp hc with h | hc
          · subst h; decide
          rcases List.mem_cons.mp hc with h | hc
          · subst h; decide
          · exact ih false c hc
        · split
          · intro c hc
            rcases List.mem_cons.mp hc with h | hc
            · subst h; decide
            rcases List.mem_cons.mp hc with h | hc
            · subst h; decide
            rcases List.mem_cons.mp hc with h | hc
            · subst h; decide
            rcases List.mem_cons.mp hc with h | hc
            · subst h; decide
            rcases List.mem_cons.mp hc with h | hc
            · subst h; decide
            · exact ih false c hc
          · rename_i h1 h2 h3
            intro c hc
            rcases List.mem_cons.mp hc with h | hc
            · subst h
              exact ⟨fun h => h1 (by simp [h]), fun h => h2 (by simp [h])⟩
            · exact ih false c hc

/-- The lowercase image of every pair in `lowerPairs` is not itself an
uppercase key of `lowerPairs`. -/
theorem lowerPairs_image_not_key :
    ∀ p ∈ lowerPairs, lowerPairs.find? (fun q => q.1 = p.2) = none := by
  decide

/-- `pyLower` is idempotent. -/
theorem pyLower_idem (c : Char) : pyLower (pyLower c) = pyLower c := by
  cases hf : lowerPairs.find? (fun p => p.1 = c) with
  | none => simp [pyLower, hf]
  | some p =>
    have hmem : p ∈ lowerPairs := List.mem_of_find?_eq_some hf
    have hnone := lowerPairs_image_not_key p hmem
    simp [pyLower, hf, hnone]

/-- `pyLowerStr` is idempotent. -/
theorem pyLowerStr_idem (s : String) :
    pyLowerStr (pyLowerStr s) = pyLowerStr s := by
  unfold pyLowerStr
  refine congrArg String.mk ?_
  show (s.data.map pyLower).map pyLower = s.data.map pyLower
  rw [List.map_map]
  exact List.map_congr_left (fun c _ => pyLower_idem c)

/-- Membership is preserved by `insertDesc`. -/
theorem mem_insertDesc (r a : Submission) (l : List Submission) :
    a ∈ insertDesc r l ↔ a = r ∨ a ∈ l := by
  induction l with
  | nil => simp [insertDesc]
  | cons x xs ih =>
    simp only [insertDesc]
    split
    · simp
    · simp [ih]
      tauto

/-- Membership is preserved by the `ORDER BY timestamp DESC` sort. -/
theorem mem_sortByTimestampDesc (a : Submission) (l : List Submission) :
    a ∈ sortByTimestampDesc l ↔ a ∈ l := by
  induction l with
  | nil => simp [sortByTimestampDesc]
  | cons x xs ih => simp [sortByTimestampDesc, mem_insertDesc, ih]

/-- The regex character class agrees with the spec's phrasing up to the
difference between a space and general whitespace. -/
theorem isWordChar_eq_claimed_or_space (c : Char) :
    isWordChar c = (claimedWordChar c || isPySpace c) := by
  unfold isWordChar claimedWordChar
  cases hL : isLatinLetter c
  · cases hS : isPySpace c
    · simp only [Bool.false_or]
      have : (c = ' ') = False := by
        simp only [isPySpace] at hS
        simp only [eq_iff_iff, iff_false]
        intro h
        subst h
        simp at hS
      simp [this]
    · simp
  · simp

/-- A contribution form with exactly the three declared fields. -/
def mkForm (w c n : String) : List (String × String) :=
  [("parola", w), ("frase_indizio", c), ("nome", n)]

theorem mkForm_lookup_access (w c n : String) :
    (mkForm w c n).lookup "access_password" = none := rfl

theorem mkForm_lookup_parola (w c n : String) :
    (mkForm w c n).lookup "parola" = some w := rfl

theorem mkForm_lookup_frase (w c n : String) :
    (mkForm w c n).lookup "frase_indizio" = some c := rfl

theorem mkForm_lookup_nome (w c n : String) :
    (mkForm w c n).lookup "nome" = some n := rfl

/-- The successful-submission path of `indexPost`: with the gate held, a
form that validates, passes both validators and is no duplicate, is
inserted (word lowercased, clue and name as sanitized). -/
theorem indexPost_insert (cfg : Config) (sess : Session)
    (form : List (String × String)) (store : Store) (w c n : String)
    (hgate : sess.form_access = true)
    (hnoap : form.lookup "access_password" = none)
    (hw : form.lookup "parola" = some w)
    (hc : form.lookup "frase_indizio" = some c)
    (hn : form.lookup "nome" = some n)
    (hval : contribValidate (some w) (some c) (some n) = true)
    (hword : is_valid_word (sanitize_input w) = true)
    (hclue : is_valid_clue (sanitize_input c) = true)
    (hdup : isDuplicate store (pyLowerStr (sanitize_input w))
      (sanitize_input c) = false) :
    indexPost cfg sess form store =
      (.successPage (sanitize_input n), sess,
        insertSub store (pyLowerStr (sanitize_input w)) (sanitize_input c)
          (sanitize_input n)) := by
  unfold indexPost
  rw [hnoap, hw, hc, hn, hgate]
  simp [hval, hword, hclue, hdup]

/-- The duplicate-rejection path of `indexPost`: with the gate held, a form
that validates and passes both validators but whose (lowercased word, clue)
pair is already stored is rejected and nothing is written. -/
theorem indexPost_duplicate (cfg : Config) (sess : Session)
    (form : List (String × String)) (store : Store) (w c n : String)
    (hgate : sess.form_access = true)
    (hnoap : form.lookup "access_password" = none)
    (hw : form.lookup "parola" = some w)
    (hc : form.lookup "frase_indizio" = some c)
    (hn : form.lookup "nome" = some n)
    (hval : contribValidate (some w) (some c) (some n) = true)
    (hword : is_valid_word (sanitize_input w) = true)
    (hclue : is_valid_clue (sanitize_input c) = true)
    (hdup : isDuplicate store (pyLowerStr (sanitize_input w))
      (sanitize_input c) = true) :
    indexPost cfg sess form store = (.duplicateMsg, sess, store) := by
  unfold indexPost
  rw [hnoap, hw, hc, hn, hgate]
  simp [hval, hword, hclue, hdup]

/-! ### Claim theorems -/

/-- C5: for every input string, the sanitizer output contains no tag
delimiters (`<` or `>`); it trims leading/trailing whitespace and strips
markup tags and attributes while preserving adjacent plain text, as on the
spec's example `<script>alert(1)</script>`. -/
theorem sanitizer_strips_all_tags :
    (∀ s : String, ∀ c ∈ (sanitize_input s).data, c ≠ '<' ∧ c ≠ '>')
    ∧ sanitize_input "  <script>alert(1)</script>  " = "alert(1)"
    ∧ sanitize_input " hello <b onclick=\"evil()\">world</b> " = "hello world" := by
  refine ⟨?_, by decide, by decide⟩
  intro s c hc
  unfold sanitize_input at hc
  split at hc
  · rename_i h
    subst h
    simp [String.data] at hc
  · exact bleachClean_delim_free _ false c hc

/-- C6 counterexample: the word `"a\tb"` is accepted by `is_valid_word`
although its middle character, a tab, is neither a Latin letter nor a
space — the regex class `\s` admits every whitespace character, not only
the space, so the claimed "letters or spaces only" iff fails. -/
theorem word_validator_accepts_tab :
    is_valid_word "a\tb" = true
    ∧ ¬((pyStrip "a\tb").data.all claimedWordChar = true) := by
  decide

/-- C6 (amended): the word validator accepts a string iff, after trimming,
it is non-empty and every character is a Latin letter (including the ten
accented vowels, upper or lower case) or a whitespace character (the
regex's `\s`, which covers the space but also tab, newline, etc.);
digits and punctuation are rejected.  In particular `"Hello123"` and
`"Hello!"` are rejected while `"Hello World"` and `"città"` are
accepted. -/
theorem word_validator_charclass :
    (∀ w : String, is_valid_word w = true ↔
      ((pyStrip w).data ≠ [] ∧
        ∀ c ∈ (pyStrip w).data,
          claimedWordChar c = true ∨ isPySpace c = true))
    ∧ is_valid_word "Hello123" = false
    ∧ is_valid_word "Hello!" = false
    ∧ is_valid_word "Hello World" = true
    ∧ is_valid_word "città" = true := by
  refine ⟨?_, by decide, by decide, by decide, by decide⟩
  intro w
  unfold is_valid_word
  rw [Bool.and_eq_true, List.all_eq_true]
  constructor
  · rintro ⟨hne, hall⟩
    refine ⟨by simpa using hne, fun c hc => ?_⟩
    have := hall c hc
    rw [isWordChar_eq_claimed_or_space, Bool.or_eq_true] at this
    exact this
  · rintro ⟨hne, hall⟩
    refine ⟨by simpa using hne, fun c hc => ?_⟩
    rw [isWordChar_eq_claimed_or_space, Bool.or_eq_true]
    exact hall c hc

/-- C7: when the `admin_logged_in` flag is not set, `GET /admin/export` and
`POST /admin/delete/<id>` are refused outright with `abort(403)` (no
redirect), and the store is untouched. -/
theorem admin_routes_refuse_without_gate (sess : Session) (store : Store)
    (submission_id : Nat) (h : sess.admin_logged_in = false) :
    export_csv sess store = .forbidden
    ∧ (delete_submission sess submission_id store).1 = .forbidden
    ∧ (delete_submission sess submission_id store).2 = store := by
  unfold export_csv delete_submission
  rw [h]
  simp

/-- Witness for C7 at a concrete session, store and id. -/
theorem admin_routes_refuse_without_gate_witness :
    export_csv ⟨true, false⟩ ⟨[⟨1, "gioia", "Sentimento che trasmette sempre gioia", "Mario Rossi", 1⟩], 2⟩ = .forbidden
    ∧ (delete_submission ⟨true, false⟩ 1 ⟨[⟨1, "gioia", "Sentimento che trasmette sempre gioia", "Mario Rossi", 1⟩], 2⟩).1 = .forbidden
    ∧ (delete_submission ⟨true, false⟩ 1 ⟨[⟨1, "gioia", "Sentimento che trasmette sempre gioia", "Mario Rossi", 1⟩], 2⟩).2 = ⟨[⟨1, "gioia", "Sentimento che trasmette sempre gioia", "Mario Rossi", 1⟩], 2⟩ :=
  admin_routes_refuse_without_gate ⟨true, false⟩ _ 1 rfl

/-- C4 counterexample: with the configured contributor secret `"bianca"`,
the submitted string `" bianca"` is *not* equal to the secret, yet the
login attempt is granted and the `form_access` flag is set — the handler
sanitizes (in particular trims) the submitted password before comparing. -/
theorem login_grants_on_padded_password :
    (indexPost ⟨"bianca", "bianca2024"⟩ ⟨false, false⟩
        [("access_password", " bianca")] initStore).1 = .loginRedirect
    ∧ (indexPost ⟨"bianca", "bianca2024"⟩ ⟨false, false⟩
        [("access_password", " bianca")] initStore).2.1.form_access = true
    ∧ " bianca" ≠ "bianca" := by
  decide

/-- C4 (amended): a login attempt on either gate is granted iff the
submitted string passes the required-field check and its *sanitized* form
(trimmed, markup stripped) equals the configured secret under
case-sensitive string equality; otherwise the session is unchanged and an
error view is shown, and on the contributor gate the store is never
touched by a login attempt. -/
theorem attempt_login_grants_iff_sanitized_match (cfg : Config)
    (sess : Session) (form aform : List (String × String)) (store : Store)
    (pw apw : String)
    (hpw : form.lookup "access_password" = some pw)
    (hapw : aform.lookup "password" = some apw) :
    ((indexPost cfg sess form store).1 = .loginRedirect ↔
      (dataRequired (some pw) = true ∧ sanitize_input pw = cfg.form_password))
    ∧ ((indexPost cfg sess form store).1 = .loginRedirect →
        (indexPost cfg sess form store).2.1 = { sess with form_access := true })
    ∧ ((indexPost cfg sess form store).1 ≠ .loginRedirect →
        (indexPost cfg sess form store).2.1 = sess)
    ∧ (indexPost cfg sess form store).2.2 = store
    ∧ ((adminPost cfg sess aform).1 = .adminRedirect ↔
      (dataRequired (some apw) = true ∧ sanitize_input apw = cfg.admin_password))
    ∧ ((adminPost cfg sess aform).1 ≠ .adminRedirect →
        (adminPost cfg sess aform).2 = sess) := by
  unfold indexPost adminPost
  rw [hpw, hapw]
  by_cases h1 : dataRequired (some pw) = true
  · by_cases h2 : sanitize_input pw = cfg.form_password
    · by_cases h3 : dataRequired (some apw) = true
      · by_cases h4 : sanitize_input apw = cfg.admin_password <;>
          simp [h1, h2, h3, h4]
      · simp [h1, h2, h3]
    · by_cases h3 : dataRequired (some apw) = true
      · by_cases h4 : sanitize_input apw = cfg.admin_password <;>
          simp [h1, h2, h3, h4]
      · simp [h1, h2, h3]
  · by_cases h3 : dataRequired (some apw) = true
    · by_cases h4 : sanitize_input apw = cfg.admin_password <;>
        simp [h1, h3, h4]
    · simp [h1, h3]

/-- Witness for C4 (amended) at concrete login attempts on both gates. -/
theorem attempt_login_grants_iff_sanitized_match_witness :
    ((indexPost ⟨"bianca", "bianca2024"⟩ ⟨false, false⟩
        [("access_password", "wrong")] initStore).1 = .loginRedirect ↔
      (dataRequired (some "wrong") = true ∧
        sanitize_input "wrong" = "bianca"))
    ∧ ((adminPost ⟨"bianca", "bianca2024"⟩ ⟨false, false⟩
        [("password", "bianca2024")]).1 = .adminRedirect ↔
      (dataRequired (some "bianca2024") = true ∧
        sanitize_input "bianca2024" = "bianca2024")) :=
  ⟨(attempt_login_grants_iff_sanitized_match ⟨"bianca", "bianca2024"⟩
      ⟨false, false⟩ [("access_password", "wrong")] [("password", "bianca2024")]
      initStore "wrong" "bianca2024" rfl rfl).1,
   (attempt_login_grants_iff_sanitized_match ⟨"bianca", "bianca2024"⟩
      ⟨false, false⟩ [("access_password", "wrong")] [("password", "bianca2024")]
      initStore "wrong" "bianca2024" rfl rfl).2.2.2.2.1⟩

/-- C1: with the contributor gate held, a POST of a (word, clue, name)
triple that passes the form's length checks and both character-class
validators (and whose pair is not already stored — the already-stored case
is the duplicate rejection of C2) appends exactly one new row: the word
lowercased, the clue and the name exactly as produced by the sanitizer. -/
theorem gated_valid_submission_inserts_one_row (cfg : Config)
    (sess : Session) (form : List (String × String)) (store : Store)
    (w c n : String)
    (hgate : sess.form_access = true)
    (hnoap : form.lookup "access_password" = none)
    (hw : form.lookup "parola" = some w)
    (hc : form.lookup "frase_indizio" = some c)
    (hn : form.lookup "nome" = some n)
    (hval : contribValidate (some w) (some c) (some n) = true)
    (hword : is_valid_word (sanitize_input w) = true)
    (hclue : is_valid_clue (sanitize_input c) = true)
    (hdup : isDuplicate store (pyLowerStr (sanitize_input w))
      (sanitize_input c) = false) :
    indexPost cfg sess form store =
      (.successPage (sanitize_input n), sess,
        ⟨store.rows ++ [⟨store.nextId, pyLowerStr (sanitize_input w),
            sanitize_input c, sanitize_input n, store.nextId⟩],
         store.nextId + 1⟩) :=
  indexPost_insert cfg sess form store w c n hgate hnoap hw hc hn hval
    hword hclue hdup

/-- Witness for C1: the spec's example submission on the empty store. -/
theorem gated_valid_submission_inserts_one_row_witness :
    indexPost ⟨"bianca", "bianca2024"⟩ ⟨true, false⟩
        (mkForm "GIOIA" "Sentimento che trasmette sempre gioia" "Mario Rossi")
        initStore =
      (.successPage (sanitize_input "Mario Rossi"), ⟨true, false⟩,
        ⟨initStore.rows ++ [⟨initStore.nextId,
            pyLowerStr (sanitize_input "GIOIA"),
            sanitize_input "Sentimento che trasmette sempre gioia",
            sanitize_input "Mario Rossi", initStore.nextId⟩],
         initStore.nextId + 1⟩) :=
  gated_valid_submission_inserts_one_row ⟨"bianca", "bianca2024"⟩
    ⟨true, false⟩ _ initStore "GIOIA"
    "Sentimento che trasmette sempre gioia" "Mario Rossi" rfl rfl rfl rfl rfl
    (by decide) (by decide) (by decide) (by decide)

/-- C2: after a successful submission of a (word, clue) pair, a second
submission of the same pair — with the word in any letter case — is
rejected with the duplicate message and writes nothing, so exactly one row
was inserted in total; and the match is exact on the clue (case-sensitive):
a submission of the same word with a different clue string is not treated
as a duplicate and is inserted. -/
theorem same_pair_twice_inserts_once (cfg : Config) (sess : Session)
    (store : Store) (w c n w2 c2 n2 w3 c3 n3 : String)
    (hgate : sess.form_access = true)
    (hval : contribValidate (some w) (some c) (some n) = true)
    (hword : is_valid_word (sanitize_input w) = true)
    (hclue : is_valid_clue (sanitize_input c) = true)
    (hdup : isDuplicate store (pyLowerStr (sanitize_input w))
      (sanitize_input c) = false)
    (hval2 : contribValidate (some w2) (some c2) (some n2) = true)
    (hword2 : is_valid_word (sanitize_input w2) = true)
    (hclue2 : is_valid_clue (sanitize_input c2) = true)
    (hsamew : pyLowerStr (sanitize_input w2) = pyLowerStr (sanitize_input w))
    (hsamec : sanitize_input c2 = sanitize_input c)
    (hval3 : contribValidate (some w3) (some c3) (some n3) = true)
    (hword3 : is_valid_word (sanitize_input w3) = true)
    (hclue3 : is_valid_clue (sanitize_input c3) = true)
    (hdiffc : sanitize_input c3 ≠ sanitize_input c)
    (hdup3 : isDuplicate store (pyLowerStr (sanitize_input w3))
      (sanitize_input c3) = false) :
    ((indexPost cfg sess (mkForm w c n) store).2.2.rows.length
        = store.rows.length + 1)
    ∧ indexPost cfg sess (mkForm w2 c2 n2)
        (indexPost cfg sess (mkForm w c n) store).2.2
      = (.duplicateMsg, sess, (indexPost cfg sess (mkForm w c n) store).2.2)
    ∧ (indexPost cfg sess (mkForm w3 c3 n3)
        (indexPost cfg sess (mkForm w c n) store).2.2).1
      = .successPage (sanitize_input n3) := by
  have h1 := indexPost_insert cfg sess (mkForm w c n) store w c n hgate
    (mkForm_lookup_access w c n) (mkForm_lookup_parola w c n)
    (mkForm_lookup_frase w c n) (mkForm_lookup_nome w c n) hval hword hclue hdup
  refine ⟨?_, ?_, ?_⟩
  · rw [h1]
    simp [insertSub]
  · refine indexPost_duplicate cfg sess (mkForm w2 c2 n2) _ w2 c2 n2 hgate
      (mkForm_lookup_access w2 c2 n2) (mkForm_lookup_parola w2 c2 n2)
      (mkForm_lookup_frase w2 c2 n2) (mkForm_lookup_nome w2 c2 n2) hval2
      hword2 hclue2 ?_
    rw [h1]
    simp [insertSub, isDuplicate, hsamew, hsamec]
  · have h3 := indexPost_insert cfg sess (mkForm w3 c3 n3)
      (indexPost cfg sess (mkForm w c n) store).2.2 w3 c3 n3 hgate
      (mkForm_lookup_access w3 c3 n3) (mkForm_lookup_parola w3 c3 n3)
      (mkForm_lookup_frase w3 c3 n3) (mkForm_lookup_nome w3 c3 n3) hval3
      hword3 hclue3 ?_
    · rw [h3]
    · rw [h1]
      unfold isDuplicate at hdup3 ⊢
      simp [insertSub, List.any_append, hdiffc, hdup3]
      exact fun _ h => hdiffc h.symm

/-- Witness for C2: `"GIOIA"` then `"gioia"` with the same clue is
rejected as a duplicate; `"Gioia"` with a differently-cased clue is not. -/
theorem same_pair_twice_inserts_once_witness :
    ((indexPost ⟨"bianca", "bianca2024"⟩ ⟨true, false⟩
        (mkForm "GIOIA" "Sentimento che trasmette sempre gioia" "Mario")
        initStore).2.2.rows.length = initStore.rows.length + 1)
    ∧ indexPost ⟨"bianca", "bianca2024"⟩ ⟨true, false⟩
        (mkForm "gioia" "Sentimento che trasmette sempre gioia" "Anna")
        (indexPost ⟨"bianca", "bianca2024"⟩ ⟨true, false⟩
          (mkForm "GIOIA" "Sentimento che trasmette sempre gioia" "Mario")
          initStore).2.2
      = (.duplicateMsg, ⟨true, false⟩,
         (indexPost ⟨"bianca", "bianca2024"⟩ ⟨true, false⟩
           (mkForm "GIOIA" "Sentimento che trasmette sempre gioia" "Mario")
           initStore).2.2)
    ∧ (indexPost ⟨"bianca", "bianca2024"⟩ ⟨true, false⟩
        (mkForm "Gioia" "SENTIMENTO che trasmette sempre gioia" "Luca")
        (indexPost ⟨"bianca", "bianca2024"⟩ ⟨true, false⟩
          (mkForm "GIOIA" "Sentimento che trasmette sempre gioia" "Mario")
          initStore).2.2).1
      = .successPage (sanitize_input "Luca") :=
  same_pair_twice_inserts_once ⟨"bianca", "bianca2024"⟩ ⟨true, false⟩
    initStore "GIOIA" "Sentimento che trasmette sempre gioia" "Mario"
    "gioia" "Sentimento che trasmette sempre gioia" "Anna"
    "Gioia" "SENTIMENTO che trasmette sempre gioia" "Luca"
    rfl (by decide) (by decide) (by decide) (by decide) (by decide)
    (by decide) (by decide) (by decide) (by decide) (by decide) (by decide)
    (by decide) (by decide) (by decide)

/-- C8: with the admin gate held (and the table's ids distinct, as the
autoincrement primary key guarantees), deleting an id present in the store
removes exactly that row and leaves every other row unchanged; deleting a
positive id not present leaves the store entirely unchanged and reports the
soft not-found result (flash + redirect). -/
theorem delete_removes_exactly_one (sess : Session) (store : Store)
    (submission_id : Nat) (hadmin : sess.admin_logged_in = true)
    (hids : (store.rows.map Submission.id).Nodup)
    (hpos : submission_id ≠ 0) :
    (∀ r ∈ store.rows, r.id = submission_id →
      (delete_submission sess submission_id store).1 = .deleted ∧
      ∃ l1 l2, store.rows = l1 ++ r :: l2 ∧
        (delete_submission sess submission_id store).2.rows = l1 ++ l2)
    ∧ ((∀ r ∈ store.rows, r.id ≠ submission_id) →
      delete_submission sess submission_id store = (.notFound, store)) := by
  constructor
  · intro r hr hrid
    have hany : store.rows.any (fun x => x.id = submission_id) = true :=
      List.any_eq_true.mpr ⟨r, hr, by simp [hrid]⟩
    have hdel : delete_submission sess submission_id store =
        (.deleted, ⟨store.rows.filter (fun x => x.id ≠ submission_id),
          store.nextId⟩) := by
      unfold delete_submission
      rw [hadmin]
      simp [hpos, hany]
    refine ⟨by rw [hdel], ?_⟩
    obtain ⟨l1, l2, hsplit⟩ := List.append_of_mem hr
    refine ⟨l1, l2, hsplit, ?_⟩
    rw [hdel]
    have hnodup := hids
    rw [hsplit] at hnodup
    simp only [List.map_append, List.map_cons, List.nodup_append,
      List.nodup_cons] at hnodup
    have hl1 : ∀ x ∈ l1, x.id ≠ submission_id := by
      intro x hx hxid
      have hmem1 : x.id ∈ List.map Submission.id l1 :=
        List.mem_map_of_mem Submission.id hx
      have hmem2 : x.id ∈ r.id :: List.map Submission.id l2 := by
        rw [hxid.trans hrid.symm]
        exact List.mem_cons_self _ _
      exact hnodup.2.2 hmem1 hmem2
    have hl2 : ∀ x ∈ l2, x.id ≠ submission_id := by
      intro x hx hxid
      refine hnodup.2.1.1 ?_
      rw [hrid.trans hxid.symm]
      exact List.mem_map_of_mem Submission.id hx
    show List.filter (fun x => decide (x.id ≠ submission_id))
      store.rows = l1 ++ l2
    rw [hsplit, List.filter_append, List.filter_cons]
    rw [decide_eq_false (by simp [hrid])]
    simp only [Bool.false_eq_true, if_false]
    rw [List.filter_eq_self.mpr (fun a ha => decide_eq_true (hl1 a ha)),
      List.filter_eq_self.mpr (fun a ha => decide_eq_true (hl2 a ha))]
  · intro hnone
    have hany : store.rows.any (fun x => x.id = submission_id) = false := by
      rw [List.any_eq_false]
      intro r hr
      simp [hnone r hr]
    unfold delete_submission
    rw [hadmin]
    simp [hpos, hany]

/-- Witness for C8: a two-row store; deleting id 1 removes exactly the
first row, deleting id 7 is a soft not-found no-op. -/
theorem delete_removes_exactly_one_witness :
    ((delete_submission ⟨false, true⟩ 1
        ⟨[⟨1, "gioia", "Sentimento che trasmette sempre gioia", "Mario", 1⟩,
          ⟨2, "amore", "Sentimento che prova per il futuro marito", "Anna", 2⟩],
         3⟩).1 = .deleted ∧
      ∃ l1 l2,
        [⟨1, "gioia", "Sentimento che trasmette sempre gioia", "Mario", 1⟩,
         ⟨2, "amore", "Sentimento che prova per il futuro marito", "Anna", 2⟩]
          = l1 ++ (⟨1, "gioia", "Sentimento che trasmette sempre gioia", "Mario", 1⟩ : Submission) :: l2 ∧
        (delete_submission ⟨false, true⟩ 1
          ⟨[⟨1, "gioia", "Sentimento che trasmette sempre gioia", "Mario", 1⟩,
            ⟨2, "amore", "Sentimento che prova per il futuro marito", "Anna", 2⟩],
           3⟩).2.rows = l1 ++ l2)
    ∧ delete_submission ⟨false, true⟩ 7
        ⟨[⟨1, "gioia", "Sentimento che trasmette sempre gioia", "Mario", 1⟩,
          ⟨2, "amore", "Sentimento che prova per il futuro marito", "Anna", 2⟩],
         3⟩ =
        (.notFound,
         ⟨[⟨1, "gioia", "Sentimento che trasmette sempre gioia", "Mario", 1⟩,
           ⟨2, "amore", "Sentimento che prova per il futuro marito", "Anna", 2⟩],
          3⟩) :=
  ⟨(delete_removes_exactly_one ⟨false, true⟩ _ 1 rfl (by decide)
      (by decide)).1 _ (by decide) rfl,
   (delete_removes_exactly_one ⟨false, true⟩ _ 7 rfl (by decide)
      (by decide)).2 (by decide)⟩

/-- C9 counterexample: a submission whose word and clue are valid but whose
name is empty is *not* accepted — `nome` carries a `DataRequired` validator
("Il nome è obbligatorio"), so the form fails validation and nothing is
stored. -/
theorem empty_name_submission_rejected :
    (indexPost ⟨"bianca", "bianca2024"⟩ ⟨true, false⟩
        (mkForm "gioia" "Sentimento che trasmette sempre gioia" "")
        initStore).1 = .formErrors
    ∧ (indexPost ⟨"bianca", "bianca2024"⟩ ⟨true, false⟩
        (mkForm "gioia" "Sentimento che trasmette sempre gioia" "")
        initStore).2.2 = initStore := by
  decide

/-- C9 (amended): the contributor name field is required by the submission
form — a submission whose word and clue are valid but whose name is empty
is rejected with a validation error and nothing is stored; the store schema
nonetheless admits an empty name, and the CSV export substitutes the
placeholder `"Anonimo"` for any stored row whose name is empty. -/
theorem empty_name_rejected_and_export_anonimo (cfg : Config)
    (sess esess : Session) (form : List (String × String)) (store estore : Store)
    (r : Submission)
    (hgate : sess.form_access = true)
    (hnoap : form.lookup "access_password" = none)
    (hn : form.lookup "nome" = some "")
    (hadmin : esess.admin_logged_in = true)
    (hr : r ∈ estore.rows) (hrn : r.nome = "") :
    indexPost cfg sess form store = (.formErrors, sess, store)
    ∧ ∃ records, export_csv esess estore = .csv records ∧
        [r.parola, r.frase_indizio, "Anonimo", toString r.timestamp] ∈ records := by
  constructor
  · unfold indexPost
    rw [hnoap, hgate, hn]
    have : contribValidate (form.lookup "parola")
        (form.lookup "frase_indizio") (some "") = false := by
      unfold contribValidate fieldValid dataRequired
      simp [pyStrip]
    simp [this]
  · refine ⟨["Parola", "Frase Indizio", "Nome", "Data"] ::
      (sortByTimestampDesc estore.rows).map csvRow, ?_, ?_⟩
    · unfold export_csv
      rw [hadmin]
      simp
    · refine List.mem_cons_of_mem _ ?_
      have hmem : r ∈ sortByTimestampDesc estore.rows :=
        (mem_sortByTimestampDesc r estore.rows).mpr hr
      have : csvRow r = [r.parola, r.frase_indizio, "Anonimo",
          toString r.timestamp] := by
        unfold csvRow csvName
        rw [hrn]
        simp
      exact this ▸ List.mem_map_of_mem csvRow hmem

/-- Witness for C9 (amended) at a concrete store holding one row with an
empty name. -/
theorem empty_name_rejected_and_export_anonimo_witness :
    indexPost ⟨"bianca", "bianca2024"⟩ ⟨true, false⟩
        (mkForm "pace" "Quello che si augura a tutti" "") initStore
      = (.formErrors, ⟨true, false⟩, initStore)
    ∧ ∃ records, export_csv ⟨false, true⟩
        ⟨[⟨1, "gioia", "Sentimento che trasmette sempre gioia", "", 1⟩], 2⟩
        = .csv records ∧
        ["gioia", "Sentimento che trasmette sempre gioia", "Anonimo", "1"]
          ∈ records :=
  empty_name_rejected_and_export_anonimo ⟨"bianca", "bianca2024"⟩
    ⟨true, false⟩ ⟨false, true⟩
    (mkForm "pace" "Quello che si augura a tutti" "") initStore
    ⟨[⟨1, "gioia", "Sentimento che trasmette sempre gioia", "", 1⟩], 2⟩
    ⟨1, "gioia", "Sentimento che trasmette sempre gioia", "", 1⟩
    rfl rfl rfl rfl (by decide) rfl

/-- C10 counterexample: two POSTs that agree on the word, clue and name
fields, the session and the store, but differ in one extra form field —
here `access_password` — produce different outcomes and different store
states: the extra field routes the request to the login handler, so
nothing is inserted. -/
theorem extra_field_changes_outcome :
    ((mkForm "gioia" "Sentimento che trasmette sempre gioia" "Mario").lookup "parola"
      = (mkForm "gioia" "Sentimento che trasmette sempre gioia" "Mario"
          ++ [("access_password", "x")]).lookup "parola")
    ∧ ((mkForm "gioia" "Sentimento che trasmette sempre gioia" "Mario").lookup "frase_indizio"
      = (mkForm "gioia" "Sentimento che trasmette sempre gioia" "Mario"
          ++ [("access_password", "x")]).lookup "frase_indizio")
    ∧ ((mkForm "gioia" "Sentimento che trasmette sempre gioia" "Mario").lookup "nome"
      = (mkForm "gioia" "Sentimento che trasmette sempre gioia" "Mario"
          ++ [("access_password", "x")]).lookup "nome")
    ∧ (indexPost ⟨"bianca", "bianca2024"⟩ ⟨true, false⟩
        (mkForm "gioia" "Sentimento che trasmette sempre gioia" "Mario")
        initStore).1
      ≠ (indexPost ⟨"bianca", "bianca2024"⟩ ⟨true, false⟩
          (mkForm "gioia" "Sentimento che trasmette sempre gioia" "Mario"
            ++ [("access_password", "x")]) initStore).1
    ∧ (indexPost ⟨"bianca", "bianca2024"⟩ ⟨true, false⟩
        (mkForm "gioia" "Sentimento che trasmette sempre gioia" "Mario")
        initStore).2.2
      ≠ (indexPost ⟨"bianca", "bianca2024"⟩ ⟨true, false⟩
          (mkForm "gioia" "Sentimento che trasmette sempre gioia" "Mario"
            ++ [("access_password", "x")]) initStore).2.2 := by
  decide

/-- C10 (amended): the outcome of a POST to `/` depends only on the
`parola`, `frase_indizio` and `nome` fields, the `access_password` field
(whose mere presence dispatches to the login handler), the session flags
and the store state: two POSTs agreeing on those produce identical
outcome, session and store, whatever other extra fields (e.g. a honeypot
field `website`) they carry. -/
theorem index_depends_only_on_declared_fields (cfg : Config)
    (sess : Session) (store : Store) (f1 f2 : List (String × String))
    (hp : f1.lookup "parola" = f2.lookup "parola")
    (hf : f1.lookup "frase_indizio" = f2.lookup "frase_indizio")
    (hn : f1.lookup "nome" = f2.lookup "nome")
    (ha : f1.lookup "access_password" = f2.lookup "access_password") :
    indexPost cfg sess f1 store = indexPost cfg sess f2 store := by
  unfold indexPost
  rw [hp, hf, hn, ha]

/-- Witness for C10 (amended): a filled honeypot field `website` does not
change the result of a submission. -/
theorem index_depends_only_on_declared_fields_witness :
    indexPost ⟨"bianca", "bianca2024"⟩ ⟨true, false⟩
        (mkForm "gioia" "Sentimento che trasmette sempre gioia" "Mario")
        initStore
      = indexPost ⟨"bianca", "bianca2024"⟩ ⟨true, false⟩
          (mkForm "gioia" "Sentimento che trasmette sempre gioia" "Mario"
            ++ [("website", "http://spam.example")]) initStore :=
  index_depends_only_on_declared_fields ⟨"bianca", "bianca2024"⟩
    ⟨true, false⟩ initStore _ _ (by decide) (by decide) (by decide) (by decide)

/-- The store invariant: every stored word is already lowercased, and no
two rows share the same (lowercased word, exact clue) pair. -/
def StoreOk (s : Store) : Prop :=
  (∀ r ∈ s.rows, pyLowerStr r.parola = r.parola) ∧
  s.rows.Pairwise (fun a b =>
    ¬(pyLowerStr a.parola = pyLowerStr b.parola ∧
      a.frase_indizio = b.frase_indizio))

/-- A POST to `/` either leaves the store unchanged or inserts one row that
passed the duplicate guard. -/
theorem indexPost_store_cases (cfg : Config) (sess : Session)
    (form : List (String × String)) (store : Store) :
    (indexPost cfg sess form store).2.2 = store ∨
    ∃ w c n, isDuplicate store (pyLowerStr (sanitize_input w))
        (sanitize_input c) = false ∧
      (indexPost cfg sess form store).2.2 =
        insertSub store (pyLowerStr (sanitize_input w)) (sanitize_input c)
          (sanitize_input n) := by
  unfold indexPost
  split
  · dsimp only
    split
    · split
      · exact Or.inl rfl
      · exact Or.inl rfl
    · exact Or.inl rfl
  · split
    · exact Or.inl rfl
    · dsimp only
      split
      · split
        · exact Or.inl rfl
        · split
          · exact Or.inl rfl
          · split
            · exact Or.inl rfl
            · rename_i hdup
              refine Or.inr ?_
              refine ⟨_, _, _, ?_, rfl⟩
              simpa using hdup
      · exact Or.inl rfl

/-- Inserting a lowercased word that passed the duplicate guard preserves
the store invariant. -/
theorem StoreOk_insertSub (store : Store) (w c n : String)
    (h : StoreOk store)
    (hdup : isDuplicate store (pyLowerStr w) c = false) :
    StoreOk (insertSub store (pyLowerStr w) c n) := by
  obtain ⟨hlow, hpair⟩ := h
  have hdup' : ∀ r ∈ store.rows,
      ¬(r.parola = pyLowerStr w ∧ r.frase_indizio = c) := by
    intro r hr hcon
    have := List.any_eq_false.mp hdup r hr
    simp [hcon.1, hcon.2] at this
  constructor
  · intro r hr
    rcases List.mem_append.mp hr with hm | hm
    · exact hlow r hm
    · have : r = ⟨store.nextId, pyLowerStr w, c, n, store.nextId⟩ := by
        simpa using hm
      rw [this]
      exact pyLowerStr_idem w
  · show (store.rows ++
      [(⟨store.nextId, pyLowerStr w, c, n, store.nextId⟩ : Submission)]).Pairwise _
    rw [List.pairwise_append]
    refine ⟨hpair, List.pairwise_singleton _ _, ?_⟩
    intro a ha b hb
    have hbeq : b = ⟨store.nextId, pyLowerStr w, c, n, store.nextId⟩ := by
      simpa using hb
    rw [hbeq]
    rintro ⟨h1, h2⟩
    refine hdup' a ha ⟨?_, h2⟩
    rw [← hlow a ha, h1]
    exact pyLowerStr_idem w

/-- Deleting preserves the store invariant. -/
theorem StoreOk_delete (sess : Session) (submission_id : Nat)
    (store : Store) (h : StoreOk store) :
    StoreOk (delete_submission sess submission_id store).2 := by
  unfold delete_submission
  split
  · exact h
  · split
    · exact h
    · split
      · constructor
        · intro r hr
          exact h.1 r (List.mem_of_mem_filter hr)
        · exact h.2.sublist (List.filter_sublist _)
      · exact h

/-- Every reachable store satisfies the invariant. -/
theorem reachable_StoreOk {s : Store} (h : Reachable s) : StoreOk s := by
  induction h with
  | init => exact ⟨by simp [initStore], by simp [initStore]⟩
  | submit cfg sess form hr ih =>
    rename_i s'
    rcases indexPost_store_cases cfg sess form s' with he | ⟨w, c, n, hdup, he⟩
    · rw [he]; exact ih
    · rw [he]; exact StoreOk_insertSub s' _ _ _ ih hdup
  | delete sess submission_id _ ih =>
    exact StoreOk_delete sess submission_id _ ih

/-- C3: in every store state reachable from the empty database by the
public operations (gated submission POSTs, admin deletes), no two stored
contributions share the same (lowercased word, exact clue) pair. -/
theorem reachable_no_shared_pairs (s : Store) (h : Reachable s) :
    s.rows.Pairwise (fun a b =>
      ¬(pyLowerStr a.parola = pyLowerStr b.parola ∧
        a.frase_indizio = b.frase_indizio)) :=
  (reachable_StoreOk h).2

/-- Witness for C3: the store reached by one concrete submission followed
by one delete of an unknown id. -/
theorem reachable_no_shared_pairs_witness :
    (delete_submission ⟨false, true⟩ 7
        (indexPost ⟨"bianca", "bianca2024"⟩ ⟨true, false⟩
          (mkForm "GIOIA" "Sentimento che trasmette sempre gioia" "Mario")
          initStore).2.2).2.rows.Pairwise (fun a b =>
      ¬(pyLowerStr a.parola = pyLowerStr b.parola ∧
        a.frase_indizio = b.frase_indizio)) :=
  reachable_no_shared_pairs _
    (Reachable.delete ⟨false, true⟩ 7
      (Reachable.submit ⟨"bianca", "bianca2024"⟩ ⟨true, false⟩
        (mkForm "GIOIA" "Sentimento che trasmette sempre gioia" "Mario")
        Reachable.init))

end Crucibia
